import Mathlib

/-!
Shallow embedding of `tools/livp_action/make_livp.py` (Live Photo container
builder).  The script drives three external tools (ffmpeg, ffprobe, exiftool)
through `subprocess.run`, assembles a two-entry zip archive, and loops over
discovered source files.

Modelling conventions:
* the outside world (subprocess results, `uuid.uuid4()`, the output-directory
  listing, `stat`/`datetime.fromtimestamp`, file contents, the temporary
  directory name) is an explicit `Env` record of oracle functions;
* a pipeline stage returns a `Run α`: the list of commands actually handed to
  `run_cmd` (in order) together with an `Except String α` mirroring Python's
  raised `RuntimeError`;
* Python `float` tunables (`cover_time`, `max_duration`) are modelled as `ℚ`;
  the `f"{x:.3f}"` format is `format3`, decimal rendering of `int`s is
  `natChars`/`intStr`, `str.upper()` is `str_upper` (character-wise ASCII
  uppercasing, which agrees with Python on the ASCII identifiers produced by
  `uuid.uuid4()`);
* paths are plain strings and `pathlib`'s `/` is string concatenation with
  `"/"`; `Path.stem` is `path_stem`, implementing pathlib's documented
  final-component / last-suffix rule.
The Python helper `run_cmd` is named `run_command` here.
-/

/-- Decimal digit character, as produced by Python's integer formatting. -/
def digitCh (d : Nat) : Char :=
  match d with
  | 0 => '0' | 1 => '1' | 2 => '2' | 3 => '3' | 4 => '4'
  | 5 => '5' | 6 => '6' | 7 => '7' | 8 => '8' | 9 => '9'
  | _ => '*'

/-- Fuel-indexed decimal rendering of a natural number (most significant digit
first).  `fuel = n + 1` always suffices since the argument shrinks by `/ 10`. -/
def natCharsAux : Nat → Nat → List Char
  | 0, _ => []
  | fuel + 1, n =>
    if n < 10 then [digitCh n]
    else natCharsAux fuel (n / 10) ++ [digitCh (n % 10)]

/-- Decimal digit list of a natural number, e.g. `natChars 230 = ['2','3','0']`. -/
def natChars (n : Nat) : List Char := natCharsAux (n + 1) n

/-- Model of Python `str(n)` for a natural number. -/
def natStr (n : Nat) : String := String.mk (natChars n)

/-- Model of Python `str(i)` / f-string interpolation of an `int`. -/
def intStr (i : Int) : String :=
  if i < 0 then "-" ++ natStr i.natAbs else natStr i.natAbs

/-- Model of Python's `f"{index:04d}"`: decimal digits left-padded with zeros
to (at least) width 4. -/
def pad4 (n : Nat) : String :=
  String.mk (List.replicate (4 - (natChars n).length) '0' ++ natChars n)

/-- Exactly-three-digit field `d₂d₁d₀` of `k < 1000`, the fractional part
written by Python's `f"{x:.3f}"`. -/
def pad3chars (k : Nat) : List Char :=
  [digitCh (k / 100), digitCh (k / 10 % 10), digitCh (k % 10)]

/-- Model of Python's `f"{x:.3f}"` on the rational value `x`: the millisecond
numerator is rounded half-to-even, then printed as `<int>.<3 digits>`. -/
def format3 (q : ℚ) : String :=
  let num : Int := 1000 * q.num
  let den : Int := (q.den : Int)
  let f : Int := Int.fdiv num den
  let r : Int := num - f * den
  let n : Int :=
    if 2 * r < den then f
    else if den < 2 * r then f + 1
    else if f % 2 = 0 then f else f + 1
  let sign : String := if n < 0 then "-" else ""
  sign ++ natStr (n.natAbs / 1000) ++ "." ++ String.mk (pad3chars (n.natAbs % 1000))

/-- Model of Python's `str.upper()` (character-wise; ASCII-faithful). -/
def str_upper (s : String) : String := String.mk (s.data.map Char.toUpper)

/-- Split a character list on a separator character; adjacent separators give
empty groups, mirroring `"a//b".split("/") = ["a","","b"]`. -/
def splitOnChar (sep : Char) : List Char → List (List Char)
  | [] => [[]]
  | c :: rest =>
    match splitOnChar sep rest with
    | [] => [[]]
    | grp :: grps => if c = sep then [] :: grp :: grps else (c :: grp) :: grps

/-- Model of `pathlib.Path(p).name`: the last nonempty `/`-separated
component (pathlib drops empty components and trailing slashes). -/
def path_name (p : String) : String :=
  String.mk (((splitOnChar '/' p.data).filter (fun g => g ≠ [])).getLastD [])

/-- Index of the last occurrence of `'.'` in a character list (Python's
`str.rfind('.')` when it succeeds). -/
def lastDotIndex (cs : List Char) : Option Nat :=
  ((cs.enum.filter (fun ic => ic.2 = '.')).getLast?).map (fun ic => ic.1)

/-- Model of `pathlib.Path(p).stem`: the final component without its suffix;
per pathlib, the name is cut at its last dot only when that dot is neither the
first nor the last character of the name. -/
def path_stem (p : String) : String :=
  let name := (path_name p).data
  match lastDotIndex name with
  | some i =>
    if 0 < i ∧ i < name.length - 1 then String.mk (name.take i) else String.mk name
  | none => String.mk name

/-- Captured outcome of one `subprocess.run` invocation. -/
structure ProcResult where
  returncode : Int
  stdout : String
  stderr : String

/-- Local calendar components of `datetime.fromtimestamp`; the archive writer
keeps year..second and drops the microsecond field. -/
structure LocalDateTime where
  year : Nat
  month : Nat
  day : Nat
  hour : Nat
  minute : Nat
  second : Nat
  microsecond : Nat

/-- Oracles for the world the script interacts with. -/
structure Env where
  /-- Oracle for `subprocess.run` on an argument vector. -/
  exec : List String → ProcResult
  /-- the string form of the `uuid.uuid4()` drawn for the current file. -/
  uuid4 : String
  /-- Oracle for `Path.exists` on a full path, i.e. the output-directory listing at the
  moment `build_livp` starts. -/
  fileExists : String → Bool
  /-- Oracle for `Path.stat().st_mtime`; `none` models the `except` branch (timestamp
  unreadable). -/
  stat : String → Option ℚ
  /-- Oracle for `datetime.fromtimestamp` in the local timezone. -/
  localtime : ℚ → LocalDateTime
  /-- Oracle for `Path.read_bytes`. -/
  readBytes : String → List Nat
  /-- the private temporary directory `tempfile.TemporaryDirectory` hands out. -/
  tmpdir : String

/-- Result of a pipeline fragment: the commands passed to `run_cmd`, in
execution order, and the Python-level outcome (`.error` = raised error). -/
structure Run (α : Type) where
  trace : List (List String)
  result : Except String α

/-- Sequencing of pipeline fragments: a raised error skips the continuation,
exactly like a Python exception. -/
def Run.bind {α β : Type} (x : Run α) (f : α → Run β) : Run β :=
  match x.result with
  | .error e => ⟨x.trace, .error e⟩
  | .ok a => ⟨x.trace ++ (f a).trace, (f a).result⟩

/-- Python's `(result.stderr or result.stdout or "").strip()`. -/
def proc_err (result : ProcResult) : String :=
  (if result.stderr ≠ "" then result.stderr
   else if result.stdout ≠ "" then result.stdout else "").trim

/-- The `RuntimeError` text `run_cmd` raises. -/
def failure_message (label : String) (result : ProcResult) : String :=
  label ++ " failed: " ++ proc_err result

/-- Embedding of `run_cmd`: run the command, and on nonzero exit raise
`"<label> failed: <stderr or stdout, stripped>"`. -/
def run_command (exec : List String → ProcResult) (cmd : List String)
    (label : String) : Run Unit :=
  let result := exec cmd
  if result.returncode ≠ 0 then ⟨[cmd], .error (failure_message label result)⟩
  else ⟨[cmd], .ok ()⟩

/-- The ffprobe invocation `has_audio` builds. -/
def probe_cmd (ffprobe_path : String) (src : String) : List String :=
  [ffprobe_path, "-v", "error", "-select_streams", "a", "-show_entries",
   "stream=index", "-of", "csv=p=0", src]

/-- Embedding of `has_audio`: nonzero exit yields `false`, otherwise the
result is whether the stripped stdout is nonempty. -/
def has_audio (exec : List String → ProcResult) (ffprobe_path : String)
    (src : String) : Bool :=
  let result := exec (probe_cmd ffprobe_path src)
  if result.returncode ≠ 0 then false
  else (result.stdout).trim ≠ ""

/-- The `-vf` filter chain of `build_video`, exactly as the f-string builds
it: fit-scale, even-dimension truncation, fps resample, comma-joined. -/
def vf_filter (max_width max_height : Int) (fps : Int) : String :=
  "scale=min(" ++ intStr max_width ++ ",iw):min(" ++ intStr max_height ++ ",ih):" ++
  "force_original_aspect_ratio=decrease," ++
  "scale=trunc(iw/2)*2:trunc(ih/2)*2," ++
  "fps=" ++ intStr fps

/-- The synthetic silent audio source used when the probe reports no audio. -/
def anullsrc : String := "anullsrc=channel_layout=stereo:sample_rate=44100"

/-- The ffmpeg command `build_video` constructs, by probe outcome. -/
def build_video_cmd (ffmpeg_path : String) (src dst : String) (audio : Bool)
    (max_duration : ℚ) (fps max_width max_height : Int) : List String :=
  let vf := vf_filter max_width max_height fps
  if audio then
    [ffmpeg_path, "-y", "-i", src,
     "-map", "0:v:0", "-map", "0:a:0",
     "-vf", vf, "-t", format3 max_duration,
     "-c:v", "libx264", "-pix_fmt", "yuv420p", "-profile:v", "high",
     "-level", "4.1", "-c:a", "aac", "-b:a", "128k", "-ar", "44100",
     "-ac", "2", "-shortest", dst]
  else
    [ffmpeg_path, "-y", "-i", src,
     "-f", "lavfi", "-i", anullsrc,
     "-map", "0:v:0", "-map", "1:a:0",
     "-vf", vf, "-t", format3 max_duration,
     "-c:v", "libx264", "-pix_fmt", "yuv420p", "-profile:v", "high",
     "-level", "4.1", "-c:a", "aac", "-b:a", "128k", "-ar", "44100",
     "-ac", "2", "-shortest", dst]

/-- Embedding of `build_video`: probe for audio, then run the matching
encoder command under the label `"ffmpeg video"`. -/
def build_video (exec : List String → ProcResult) (ffmpeg_path ffprobe_path : String)
    (src dst : String) (max_duration : ℚ) (fps max_width max_height : Int) : Run Unit :=
  run_command exec
    (build_video_cmd ffmpeg_path src dst (has_audio exec ffprobe_path src)
      max_duration fps max_width max_height)
    "ffmpeg video"

/-- Embedding of `extract_still`: seek to `cover_time`, decode one frame at
quality 2. -/
def extract_still (exec : List String → ProcResult) (ffmpeg_path : String)
    (src dst : String) (cover_time : ℚ) : Run Unit :=
  run_command exec
    [ffmpeg_path, "-y", "-ss", format3 cover_time, "-i", src,
     "-frames:v", "1", "-q:v", "2", dst]
    "ffmpeg still"

/-- The exiftool invocation on the video: content identifier plus the two
live-photo markers, overwriting in place. -/
def exiftool_video_cmd (exiftool_path video_path content_id : String) : List String :=
  [exiftool_path, "-m", "-overwrite_original",
   "-QuickTime:ContentIdentifier=" ++ content_id,
   "-QuickTime:LivePhoto=1", "-QuickTime:LivePhotoAuto=1", video_path]

/-- The exiftool invocation on the image: the same identifier under the Apple
tag and the generic asset-identifier tag, overwriting in place. -/
def exiftool_image_cmd (exiftool_path image_path content_id : String) : List String :=
  [exiftool_path, "-m", "-overwrite_original",
   "-Apple:ContentIdentifier=" ++ content_id,
   "-XMP:AssetIdentifier=" ++ content_id, image_path]

/-- Embedding of `write_metadata`: tag the video, then (only if that
succeeded) tag the image. -/
def write_metadata (exec : List String → ProcResult)
    (exiftool_path image_path video_path content_id : String) : Run Unit :=
  Run.bind (run_command exec (exiftool_video_cmd exiftool_path video_path content_id)
      "exiftool video")
    (fun _ => run_command exec (exiftool_image_cmd exiftool_path image_path content_id)
      "exiftool image")

/-- Constant `zipfile.ZIP_STORED`. -/
def ZIP_STORED : Nat := 0

/-- Archive entry as `pack_livp` configures it through `zipfile.ZipInfo`. -/
structure ZipEntry where
  filename : String
  date_time : Nat × Nat × Nat × Nat × Nat × Nat
  compress_type : Nat
  flag_bits : Nat
  create_system : Nat
  create_version : Nat
  extract_version : Nat
  external_attr : Nat
  data : List Nat

/-- Embedding of `pack_livp`: the archive contents written to `out_path`
(opened in mode `"w"`, which truncates any existing file).  One entry per
`(src_path, arcname)` pair, photo first, with the timestamp try/except and the
forced neutral header fields. -/
def pack_livp (env : Env) (photo_path video_path : String) (out_path : String)
    (internal_base : String) : List ZipEntry :=
  let photo_name := internal_base ++ ".jpeg"
  let video_name := internal_base ++ ".mov"
  [(photo_path, photo_name), (video_path, video_name)].map
    (fun sa =>
      let date_time :=
        match env.stat sa.1 with
        | some ts =>
          let dt := env.localtime ts
          (dt.year, dt.month, dt.day, dt.hour, dt.minute, dt.second)
        | none => (1980, 1, 1, 0, 0, 0)
      { filename := sa.2
        date_time := date_time
        compress_type := ZIP_STORED
        flag_bits := 0
        create_system := 0
        create_version := 0
        extract_version := 20
        external_attr := 0
        data := env.readBytes sa.1 })

/-- Output-path resolution of `build_livp` (lines 230–233): the stem-derived
name, or the index-suffixed name when the former already exists.  The suffixed
name itself is never looked up. -/
def resolve_out_path (fileExists : String → Bool) (out_dir : String)
    (stem : String) (index : Nat) : String :=
  let out_path := out_dir ++ "/" ++ (stem ++ ".livp")
  if fileExists out_path then out_dir ++ "/" ++ (stem ++ "_" ++ pad4 index ++ ".livp")
  else out_path

/-- Embedding of `build_livp`: draw one identifier, resolve the output path,
then run normalizer → still extractor → metadata linker in sequence inside the
temporary directory and pack the archive.  On success it returns the output
path together with the packed entries. -/
def build_livp (env : Env) (ffmpeg_path ffprobe_path exiftool_path : String)
    (src : String) (out_dir : String) (index : Nat)
    (cover_time max_duration : ℚ) (fps max_width max_height : Int) :
    Run (String × List ZipEntry) :=
  let content_id := str_upper env.uuid4
  let internal_base := "IMG_" ++ pad4 index ++ ".JPG"
  let out_path := resolve_out_path env.fileExists out_dir (path_stem src) index
  let tmp_mov := env.tmpdir ++ "/livephoto.mov"
  let tmp_jpeg := env.tmpdir ++ "/livephoto.jpeg"
  Run.bind (build_video env.exec ffmpeg_path ffprobe_path src tmp_mov
      max_duration fps max_width max_height) (fun _ =>
  Run.bind (extract_still env.exec ffmpeg_path tmp_mov tmp_jpeg cover_time) (fun _ =>
  Run.bind (write_metadata env.exec exiftool_path tmp_jpeg tmp_mov content_id) (fun _ =>
  ⟨[], .ok (out_path, pack_livp env tmp_jpeg tmp_mov out_path internal_base)⟩)))

/-- Outcome of the `main` batch loop over the discovered sources. -/
structure BatchResult where
  /-- the script's exit status contribution of the loop. -/
  code : Int
  /-- the `(index, source)` pairs for which `build_livp` was invoked. -/
  attempted : List (Nat × String)
  /-- the reported failure, if any: index, source, and raised message. -/
  failure : Option (Nat × String × String)

/-- Embedding of `main`'s per-file loop (`enumerate(sources, start=1)`): any
raised failure stops the loop and returns 1 immediately; an exhausted loop
returns 0. -/
def main_loop (process : Nat → String → Except String String) :
    Nat → List String → BatchResult
  | _, [] => ⟨0, [], none⟩
  | idx, src :: rest =>
    match process idx src with
    | .ok _ =>
      let r := main_loop process (idx + 1) rest
      ⟨r.code, (idx, src) :: r.attempted, r.failure⟩
    | .error e => ⟨1, [(idx, src)], some (idx, src, e)⟩

/-- Property "the string shows exactly three decimal places": an integer part
free of dots, a dot, and a three-character all-digit fractional part. -/
def hasThreeDecimals (s : String) : Prop :=
  ∃ ip fp, s = ip ++ "." ++ fp ∧ fp.length = 3 ∧
    (∀ c ∈ fp.data, c.isDigit = true) ∧ ∀ c ∈ ip.data, c ≠ '.'

/-- Spec-side description of the first filter step: fit within
`maxWidth × maxHeight`, never upscaling, keeping aspect ratio
(`min` of target and input dimension, `force_original_aspect_ratio=decrease`). -/
def scale_fit_step (max_width max_height : Int) : String :=
  "scale=min(" ++ intStr max_width ++ ",iw):min(" ++ intStr max_height ++
    ",ih):force_original_aspect_ratio=decrease"

/-- Spec-side description of the second filter step: force both dimensions to
even integers. -/
def even_dims_step : String := "scale=trunc(iw/2)*2:trunc(ih/2)*2"

/-- Spec-side description of the third filter step: resample to `fps`. -/
def fps_step (fps : Int) : String := "fps=" ++ intStr fps

/-- The timestamp `pack_livp` stores for the entry of `path`: the stat
modification time rendered to local calendar components, year through second,
or the zip epoch on failure. -/
def entryTimestamp (env : Env) (path : String) : Nat × Nat × Nat × Nat × Nat × Nat :=
  match env.stat path with
  | some ts =>
    let dt := env.localtime ts
    (dt.year, dt.month, dt.day, dt.hour, dt.minute, dt.second)
  | none => (1980, 1, 1, 0, 0, 0)

/-- Truncation of a local datetime to calendar/time-of-day components,
dropping the sub-second field. -/
def truncateDT (dt : LocalDateTime) : Nat × Nat × Nat × Nat × Nat × Nat :=
  (dt.year, dt.month, dt.day, dt.hour, dt.minute, dt.second)

/-- Python's `enumerate(sources, start)` as used by `main`. -/
def enumFrom (start : Nat) : List String → List (Nat × String)
  | [] => []
  | s :: rest => (start, s) :: enumFrom (start + 1) rest

/-- Concrete environment for witness instances: every subprocess succeeds and
reports one audio stream, every output name already exists, and no timestamp
is readable. -/
def envW : Env :=
  { exec := fun _ => ⟨0, "0", ""⟩
    uuid4 := "ab-12"
    fileExists := fun _ => true
    stat := fun _ => none
    localtime := fun _ => ⟨1980, 1, 1, 0, 0, 0, 0⟩
    readBytes := fun _ => [7, 7]
    tmpdir := "/tmp/livp_x" }

/-- Concrete per-file processor for witness instances: fails on the source
named `"b"`, succeeds elsewhere. -/
def procW : Nat → String → Except String String :=
  fun _ s => if s = "b" then .error "boom" else .ok s

/-! Helper lemmas: characters, digits, and `format3`. -/

theorem uint32_le_iff (a b : UInt32) : a ≤ b ↔ a.toNat ≤ b.toNat := Iff.rfl

theorem char_isLower_iff (c : Char) : c.isLower = true ↔ 97 ≤ c.toNat ∧ c.toNat ≤ 122 := by
  have h1 : (97 : Nat) % UInt32.size = 97 := by norm_num [UInt32.size]
  have h2 : (122 : Nat) % UInt32.size = 122 := by norm_num [UInt32.size]
  have h3 : c.toNat = c.val.toNat := rfl
  simp only [Char.isLower, Bool.and_eq_true, decide_eq_true_eq, ge_iff_le,
    uint32_le_iff, UInt32.toNat_ofNat, h1, h2, h3]

theorem char_ofNat_toNat (n : Nat) (h : n.isValidChar) : (Char.ofNat n).toNat = n := by
  have hlt : n < 2 ^ 32 := by
    rcases h with h | ⟨_, h2⟩ <;> omega
  simp only [Char.ofNat, h, dite_true]
  simp only [Char.ofNatAux, Char.toNat, UInt32.toNat]
  simp [Nat.mod_eq_of_lt hlt]

theorem toUpper_not_isLower (c : Char) : (Char.toUpper c).isLower = false := by
  have hdef : Char.toUpper c =
      if c.toNat ≥ 97 ∧ c.toNat ≤ 122 then Char.ofNat (c.toNat - 32) else c := rfl
  rw [hdef]
  split
  · next h =>
    have hv : (c.toNat - 32).isValidChar := Or.inl (by omega)
    have hn := char_ofNat_toNat (c.toNat - 32) hv
    rw [Bool.eq_false_iff]
    intro hl
    rw [char_isLower_iff] at hl
    omega
  · next h =>
    rw [Bool.eq_false_iff]
    intro hl
    rw [char_isLower_iff] at hl
    exact h hl

theorem str_upper_not_lower (s : String) : ∀ c ∈ (str_upper s).data, c.isLower = false := by
  intro c hc
  simp only [str_upper, List.mem_map] at hc
  obtain ⟨d, _, rfl⟩ := hc
  exact toUpper_not_isLower d

theorem digitCh_isDigit (d : Nat) (h : d < 10) : (digitCh d).isDigit = true := by
  interval_cases d <;> decide

theorem natCharsAux_digits (fuel : Nat) :
    ∀ n c, c ∈ natCharsAux fuel n → c.isDigit = true := by
  induction fuel with
  | zero => intro n c hc; simp [natCharsAux] at hc
  | succ fuel ih =>
    intro n c hc
    unfold natCharsAux at hc
    split at hc
    · next h =>
      simp only [List.mem_singleton] at hc
      subst hc
      exact digitCh_isDigit n h
    · next h =>
      rcases List.mem_append.mp hc with h1 | h1
      · exact ih _ _ h1
      · simp only [List.mem_singleton] at h1
        subst h1
        exact digitCh_isDigit _ (Nat.mod_lt _ (by omega))

theorem natChars_digits (n : Nat) : ∀ c ∈ natChars n, c.isDigit = true :=
  natCharsAux_digits (n + 1) n

theorem isDigit_ne_dot (c : Char) (h : c.isDigit = true) : c ≠ '.' := by
  intro hc
  subst hc
  simp [Char.isDigit] at h

theorem pad3chars_length (k : Nat) : (pad3chars k).length = 3 := rfl

theorem pad3chars_digits (k : Nat) (hk : k < 1000) :
    ∀ c ∈ pad3chars k, c.isDigit = true := by
  intro c hc
  simp only [pad3chars, List.mem_cons, List.not_mem_nil, or_false] at hc
  rcases hc with rfl | rfl | rfl
  · exact digitCh_isDigit _ (by omega)
  · exact digitCh_isDigit _ (Nat.mod_lt _ (by omega))
  · exact digitCh_isDigit _ (Nat.mod_lt _ (by omega))

theorem mem_ite_data (P : Prop) [Decidable P] (a b : String) (c : Char)
    (hc : c ∈ (if P then a else b).data) : c ∈ a.data ∨ c ∈ b.data := by
  split at hc
  · exact Or.inl hc
  · exact Or.inr hc

theorem format3_hasThreeDecimals (q : ℚ) : hasThreeDecimals (format3 q) := by
  unfold format3
  refine ⟨_, _, rfl, rfl, ?_, ?_⟩
  · intro c hc
    exact pad3chars_digits _ (by omega) c hc
  · intro c hc
    rw [String.data_append] at hc
    rcases List.mem_append.mp hc with h1 | h1
    · rcases mem_ite_data _ _ _ _ h1 with h2 | h2
      · rw [show ("-" : String).data = ['-'] from rfl] at h2
        simp only [List.mem_singleton] at h2
        subst h2
        decide
      · rw [show ("" : String).data = [] from rfl] at h2
        exact absurd h2 (List.not_mem_nil c)
    · exact isDigit_ne_dot c (natChars_digits _ c h1)

theorem hasThreeDecimals_mem_dot (s : String) (h : hasThreeDecimals s) :
    '.' ∈ s.data := by
  obtain ⟨ip, fp, rfl, _, _, _⟩ := h
  rw [String.data_append, String.data_append]
  refine List.mem_append.mpr (Or.inl (List.mem_append.mpr (Or.inr ?_)))
  decide

theorem format3_ne_map (q : ℚ) : format3 q ≠ "-map" := by
  intro h
  have hd := hasThreeDecimals_mem_dot _ (format3_hasThreeDecimals q)
  rw [h] at hd
  simp at hd

/-! Helper lemmas: `run_command` and `Run.bind`. -/

theorem run_command_ok (exec : List String → ProcResult) (cmd : List String)
    (label : String) (h : (exec cmd).returncode = 0) :
    run_command exec cmd label = ⟨[cmd], .ok ()⟩ := by
  simp [run_command, h]

theorem run_command_fail (exec : List String → ProcResult) (cmd : List String)
    (label : String) (h : (exec cmd).returncode ≠ 0) :
    run_command exec cmd label = ⟨[cmd], .error (failure_message label (exec cmd))⟩ := by
  simp [run_command, h]

theorem run_command_result_ok (exec : List String → ProcResult) (cmd : List String)
    (label : String) (u : Unit) (h : (run_command exec cmd label).result = .ok u) :
    (exec cmd).returncode = 0 := by
  by_cases h0 : (exec cmd).returncode = 0
  · exact h0
  · rw [run_command_fail exec cmd label h0] at h
    exact absurd h (by simp)

theorem bind_result_ok {α β : Type} (x : Run α) (f : α → Run β) (b : β)
    (h : (Run.bind x f).result = .ok b) :
    ∃ a, x.result = .ok a ∧ (f a).result = .ok b ∧
      (Run.bind x f).trace = x.trace ++ (f a).trace := by
  unfold Run.bind at *
  cases hx : x.result with
  | error e => rw [hx] at h; exact absurd h (by simp)
  | ok a =>
    rw [hx] at h
    exact ⟨a, rfl, h, rfl⟩

theorem run_command_trace (exec : List String → ProcResult) (cmd : List String)
    (label : String) : (run_command exec cmd label).trace = [cmd] := by
  by_cases h : (exec cmd).returncode = 0
  · rw [run_command_ok _ _ _ h]
  · rw [run_command_fail _ _ _ h]

theorem vf_ne_map (max_width max_height fps : Int) :
    vf_filter max_width max_height fps ≠ "-map" := by
  intro hcontra
  have hd := congrArg String.data hcontra
  simp [vf_filter, String.data_append] at hd

/-- Shape of a successful `build_livp`: the returned pair is the resolved
output path with the packed archive, and exactly the four pipeline commands
ran, in order. -/
theorem build_livp_ok_shape (env : Env)
    (ffmpeg_path ffprobe_path exiftool_path src out_dir : String) (index : Nat)
    (cover_time max_duration : ℚ) (fps max_width max_height : Int)
    (r : String × List ZipEntry)
    (h : (build_livp env ffmpeg_path ffprobe_path exiftool_path src out_dir index
        cover_time max_duration fps max_width max_height).result = .ok r) :
    r = (resolve_out_path env.fileExists out_dir (path_stem src) index,
         pack_livp env (env.tmpdir ++ "/livephoto.jpeg") (env.tmpdir ++ "/livephoto.mov")
           (resolve_out_path env.fileExists out_dir (path_stem src) index)
           ("IMG_" ++ pad4 index ++ ".JPG")) ∧
    (build_livp env ffmpeg_path ffprobe_path exiftool_path src out_dir index
        cover_time max_duration fps max_width max_height).trace =
      [build_video_cmd ffmpeg_path src (env.tmpdir ++ "/livephoto.mov")
         (has_audio env.exec ffprobe_path src) max_duration fps max_width max_height,
       [ffmpeg_path, "-y", "-ss", format3 cover_time, "-i", env.tmpdir ++ "/livephoto.mov",
        "-frames:v", "1", "-q:v", "2", env.tmpdir ++ "/livephoto.jpeg"],
       exiftool_video_cmd exiftool_path (env.tmpdir ++ "/livephoto.mov") (str_upper env.uuid4),
       exiftool_image_cmd exiftool_path (env.tmpdir ++ "/livephoto.jpeg") (str_upper env.uuid4)] := by
  have h' := h
  simp only [build_livp, build_video, extract_still, write_metadata] at h'
  obtain ⟨u1, h1, hr1, _⟩ := bind_result_ok _ _ _ h'
  obtain ⟨u2, h2, hr2, _⟩ := bind_result_ok _ _ _ hr1
  obtain ⟨u3, h3, hr3, _⟩ := bind_result_ok _ _ _ hr2
  obtain ⟨u4, h4, h5, _⟩ := bind_result_ok _ _ _ h3
  have hc1 := run_command_result_ok _ _ _ _ h1
  have hc2 := run_command_result_ok _ _ _ _ h2
  have hc4 := run_command_result_ok _ _ _ _ h4
  have hc5 := run_command_result_ok _ _ _ _ h5
  constructor
  · simp only [Except.ok.injEq] at hr3
    exact hr3.symm
  · simp only [build_livp, build_video, extract_still, write_metadata]
    rw [run_command_ok _ _ _ hc1, run_command_ok _ _ _ hc2,
      run_command_ok _ _ _ hc4, run_command_ok _ _ _ hc5]
    rfl

/-- C6: the audio probe never propagates an error: a nonzero exit of the
ffprobe subprocess makes `has_audio` return `false`, and on zero exit it
returns `true` exactly when the stripped standard output (the reported audio
stream indices) is nonempty. -/
theorem C6_has_audio_swallows_failure (exec : List String → ProcResult)
    (ffprobe_path src : String) :
    ((exec (probe_cmd ffprobe_path src)).returncode ≠ 0 →
      has_audio exec ffprobe_path src = false) ∧
    ((exec (probe_cmd ffprobe_path src)).returncode = 0 →
      (has_audio exec ffprobe_path src = true ↔
        (exec (probe_cmd ffprobe_path src)).stdout.trim ≠ "")) := by
  constructor
  · intro h
    simp [has_audio, h]
  · intro h
    simp [has_audio, h]

theorem C6_witness :
    has_audio (fun _ => (⟨1, "0", ""⟩ : ProcResult)) "ffprobe" "in/v.mp4" = false :=
  (C6_has_audio_swallows_failure (fun _ => ⟨1, "0", ""⟩) "ffprobe" "in/v.mp4").1
    (by decide)

/-- C8: `write_metadata` issues exactly the two in-place writes, the video
command first and the image command second, both carrying
`-overwrite_original` (no backups); a nonzero exit of the video write raises
at once, leaving the image command unexecuted, and a nonzero exit of the image
write also raises. -/
theorem C8_write_metadata_two_writes (exec : List String → ProcResult)
    (exiftool_path image_path video_path content_id : String) :
    ("-overwrite_original" ∈ exiftool_video_cmd exiftool_path video_path content_id ∧
     "-overwrite_original" ∈ exiftool_image_cmd exiftool_path image_path content_id) ∧
    ((exec (exiftool_video_cmd exiftool_path video_path content_id)).returncode ≠ 0 →
      write_metadata exec exiftool_path image_path video_path content_id =
        ⟨[exiftool_video_cmd exiftool_path video_path content_id],
         .error (failure_message "exiftool video"
           (exec (exiftool_video_cmd exiftool_path video_path content_id)))⟩) ∧
    ((exec (exiftool_video_cmd exiftool_path video_path content_id)).returncode = 0 →
      (exec (exiftool_image_cmd exiftool_path image_path content_id)).returncode ≠ 0 →
      write_metadata exec exiftool_path image_path video_path content_id =
        ⟨[exiftool_video_cmd exiftool_path video_path content_id,
          exiftool_image_cmd exiftool_path image_path content_id],
         .error (failure_message "exiftool image"
           (exec (exiftool_image_cmd exiftool_path image_path content_id)))⟩) ∧
    ((exec (exiftool_video_cmd exiftool_path video_path content_id)).returncode = 0 →
      (exec (exiftool_image_cmd exiftool_path image_path content_id)).returncode = 0 →
      write_metadata exec exiftool_path image_path video_path content_id =
        ⟨[exiftool_video_cmd exiftool_path video_path content_id,
          exiftool_image_cmd exiftool_path image_path content_id], .ok ()⟩) := by
  refine ⟨⟨by simp [exiftool_video_cmd], by simp [exiftool_image_cmd]⟩, ?_, ?_, ?_⟩
  · intro h
    unfold write_metadata
    rw [run_command_fail _ _ _ h]
    rfl
  · intro h hi
    unfold write_metadata
    rw [run_command_ok _ _ _ h, run_command_fail _ _ _ hi]
    rfl
  · intro h hi
    unfold write_metadata
    rw [run_command_ok _ _ _ h, run_command_ok _ _ _ hi]
    rfl

theorem C8_witness :
    write_metadata (fun _ => (⟨1, "", "boom"⟩ : ProcResult)) "exiftool" "i.jpeg" "v.mov" "CID" =
      ⟨[exiftool_video_cmd "exiftool" "v.mov" "CID"],
       .error (failure_message "exiftool video" ⟨1, "", "boom"⟩)⟩ :=
  (C8_write_metadata_two_writes (fun _ => ⟨1, "", "boom"⟩) "exiftool" "i.jpeg" "v.mov"
    "CID").2.1 (by decide)

set_option maxHeartbeats 1600000 in
/-- C2: for every tuning and source, the encoder command clips via `-t` to
`max_duration` rendered with exactly three decimal places, in both the
audio-present and audio-absent branches; it always carries exactly two `-map`
selections, the first video stream `0:v:0` and, when the probe reports audio,
the source's first audio stream `0:a:0`, otherwise the first stream `1:a:0`
of a synthesized silent stereo 44100 Hz `anullsrc` input — so both a video
and an audio track are always requested. -/
theorem C2_build_video_duration_and_streams (ffmpeg_path src dst : String)
    (audio : Bool) (max_duration : ℚ) (fps max_width max_height : Int)
    (hf : ffmpeg_path ≠ "-map") (hs : src ≠ "-map") (hd : dst ≠ "-map") :
    build_video_cmd ffmpeg_path src dst audio max_duration fps max_width max_height =
      [ffmpeg_path, "-y", "-i", src] ++
        (if audio then [] else ["-f", "lavfi", "-i", anullsrc]) ++
        ["-map", "0:v:0", "-map", if audio then "0:a:0" else "1:a:0",
         "-vf", vf_filter max_width max_height fps, "-t", format3 max_duration,
         "-c:v", "libx264", "-pix_fmt", "yuv420p", "-profile:v", "high",
         "-level", "4.1", "-c:a", "aac", "-b:a", "128k", "-ar", "44100",
         "-ac", "2", "-shortest", dst] ∧
    (build_video_cmd ffmpeg_path src dst audio max_duration fps
        max_width max_height).count "-map" = 2 ∧
    hasThreeDecimals (format3 max_duration) := by
  refine ⟨?_, ?_, format3_hasThreeDecimals _⟩
  · cases audio <;> rfl
  · have hvf := vf_ne_map max_width max_height fps
    have ht := format3_ne_map max_duration
    cases audio
    · simp [build_video_cmd, anullsrc, List.count_cons, hf, hs, hd, hvf, ht]
    · simp [build_video_cmd, List.count_cons, hf, hs, hd, hvf, ht]

theorem C2_witness :
    (build_video_cmd "ffmpeg" "in/v.mp4" "t.mov" true 3 30 3840 2160).count "-map" = 2 :=
  (C2_build_video_duration_and_streams "ffmpeg" "in/v.mp4" "t.mov" true 3 30 3840 2160
    (by decide) (by decide) (by decide)).2.1

/-- C3: the filter chain is built in exactly this order: the
aspect-preserving, never-upscaling fit to `max_width × max_height`
(`min` against the input dimensions with `force_original_aspect_ratio=decrease`),
then the even-dimension truncation `trunc(d/2)*2`, then the resample to
`fps`. -/
theorem C3_filter_chain_order (max_width max_height fps : Int) :
    vf_filter max_width max_height fps =
      scale_fit_step max_width max_height ++ "," ++ even_dims_step ++ "," ++
        fps_step fps := by
  unfold vf_filter scale_fit_step even_dims_step fps_step
  simp only [String.append_assoc]
  exact congrArg _ (congrArg _ (congrArg _ (congrArg _ rfl)))

/-- C1: one processing of a source draws exactly one identifier,
`str(uuid.uuid4()).upper()`, and a successful run executes both metadata
writes with that same string: the video command carries it as
`QuickTime:ContentIdentifier` and the image command carries it as both
`Apple:ContentIdentifier` and `XMP:AssetIdentifier`; the identifier contains
no lower-case letter. -/
theorem C1_shared_content_identifier (env : Env)
    (ffmpeg_path ffprobe_path exiftool_path src out_dir : String) (index : Nat)
    (cover_time max_duration : ℚ) (fps max_width max_height : Int)
    (r : String × List ZipEntry)
    (h : (build_livp env ffmpeg_path ffprobe_path exiftool_path src out_dir index
        cover_time max_duration fps max_width max_height).result = .ok r) :
    exiftool_video_cmd exiftool_path (env.tmpdir ++ "/livephoto.mov") (str_upper env.uuid4)
        ∈ (build_livp env ffmpeg_path ffprobe_path exiftool_path src out_dir index
            cover_time max_duration fps max_width max_height).trace ∧
    exiftool_image_cmd exiftool_path (env.tmpdir ++ "/livephoto.jpeg") (str_upper env.uuid4)
        ∈ (build_livp env ffmpeg_path ffprobe_path exiftool_path src out_dir index
            cover_time max_duration fps max_width max_height).trace ∧
    ("-QuickTime:ContentIdentifier=" ++ str_upper env.uuid4)
        ∈ exiftool_video_cmd exiftool_path (env.tmpdir ++ "/livephoto.mov")
            (str_upper env.uuid4) ∧
    ("-Apple:ContentIdentifier=" ++ str_upper env.uuid4)
        ∈ exiftool_image_cmd exiftool_path (env.tmpdir ++ "/livephoto.jpeg")
            (str_upper env.uuid4) ∧
    ("-XMP:AssetIdentifier=" ++ str_upper env.uuid4)
        ∈ exiftool_image_cmd exiftool_path (env.tmpdir ++ "/livephoto.jpeg")
            (str_upper env.uuid4) ∧
    (∀ c ∈ (str_upper env.uuid4).data, c.isLower = false) := by
  obtain ⟨-, htr⟩ := build_livp_ok_shape env ffmpeg_path ffprobe_path exiftool_path src
    out_dir index cover_time max_duration fps max_width max_height r h
  rw [htr]
  exact ⟨by simp, by simp, by simp [exiftool_video_cmd], by simp [exiftool_image_cmd],
    by simp [exiftool_image_cmd], str_upper_not_lower _⟩

theorem C1_witness :
    exiftool_video_cmd "exiftool" ("/tmp/livp_x" ++ "/livephoto.mov") (str_upper "ab-12") ∈
      (build_livp envW "ffmpeg" "ffprobe" "exiftool" "in/video.mp4" "out" 3
        3 3 30 3840 2160).trace :=
  (C1_shared_content_identifier envW "ffmpeg" "ffprobe" "exiftool" "in/video.mp4" "out" 3
    3 3 30 3840 2160
    (resolve_out_path envW.fileExists "out" (path_stem "in/video.mp4") 3,
     pack_livp envW (envW.tmpdir ++ "/livephoto.jpeg") (envW.tmpdir ++ "/livephoto.mov")
       (resolve_out_path envW.fileExists "out" (path_stem "in/video.mp4") 3)
       ("IMG_" ++ pad4 3 ++ ".JPG"))
    (by rfl)).1

/-- C5: when the stem-derived name `<stem>.livp` already exists in the output
directory, the resolved container path is `<stem>_<index padded to 4>.livp`,
and any successful `build_livp` returns exactly that path.  The directory is
consulted only through `resolve_out_path`, which `build_livp` computes from
the initial listing before any pipeline stage runs. -/
theorem C5_collision_adds_index_suffix (env : Env)
    (ffmpeg_path ffprobe_path exiftool_path src out_dir : String) (index : Nat)
    (cover_time max_duration : ℚ) (fps max_width max_height : Int)
    (hex : env.fileExists (out_dir ++ "/" ++ (path_stem src ++ ".livp")) = true) :
    resolve_out_path env.fileExists out_dir (path_stem src) index =
      out_dir ++ "/" ++ (path_stem src ++ "_" ++ pad4 index ++ ".livp") ∧
    ∀ r : String × List ZipEntry,
      (build_livp env ffmpeg_path ffprobe_path exiftool_path src out_dir index
          cover_time max_duration fps max_width max_height).result = .ok r →
      r.1 = out_dir ++ "/" ++ (path_stem src ++ "_" ++ pad4 index ++ ".livp") := by
  have h1 : resolve_out_path env.fileExists out_dir (path_stem src) index =
      out_dir ++ "/" ++ (path_stem src ++ "_" ++ pad4 index ++ ".livp") := by
    simp [resolve_out_path, hex]
  refine ⟨h1, ?_⟩
  intro r h
  have hr := (build_livp_ok_shape env ffmpeg_path ffprobe_path exiftool_path src out_dir
    index cover_time max_duration fps max_width max_height r h).1
  rw [hr]
  exact h1

theorem C5_witness :
    resolve_out_path envW.fileExists "out" (path_stem "in/video.mp4") 3 =
      "out/video_0003.livp" :=
  (C5_collision_adds_index_suffix envW "ffmpeg" "ffprobe" "exiftool" "in/video.mp4"
    "out" 3 3 3 30 3840 2160 rfl).1

/-- C10: collision resolution is single-step: whenever the stem-derived name
exists, the resolved path is the index-suffixed name, regardless of the whole
rest of the directory state — in particular also when the suffixed name itself
already exists, in which case `pack_livp` (zip mode `"w"`) overwrites it; the
suffixed name is never looked up. -/
theorem C10_single_step_collision (env : Env)
    (ffmpeg_path ffprobe_path exiftool_path src out_dir : String) (index : Nat)
    (cover_time max_duration : ℚ) (fps max_width max_height : Int)
    (hex1 : env.fileExists (out_dir ++ "/" ++ (path_stem src ++ ".livp")) = true)
    (hex2 : env.fileExists
      (out_dir ++ "/" ++ (path_stem src ++ "_" ++ pad4 index ++ ".livp")) = true) :
    resolve_out_path env.fileExists out_dir (path_stem src) index =
      out_dir ++ "/" ++ (path_stem src ++ "_" ++ pad4 index ++ ".livp") ∧
    (∀ fe2 : String → Bool,
      fe2 (out_dir ++ "/" ++ (path_stem src ++ ".livp")) = true →
      resolve_out_path fe2 out_dir (path_stem src) index =
        out_dir ++ "/" ++ (path_stem src ++ "_" ++ pad4 index ++ ".livp")) ∧
    ∀ r : String × List ZipEntry,
      (build_livp env ffmpeg_path ffprobe_path exiftool_path src out_dir index
          cover_time max_duration fps max_width max_height).result = .ok r →
      r.1 = out_dir ++ "/" ++ (path_stem src ++ "_" ++ pad4 index ++ ".livp") := by
  refine ⟨by simp [resolve_out_path, hex1], ?_, ?_⟩
  · intro fe2 h2
    simp [resolve_out_path, h2]
  · intro r h
    have hr := (build_livp_ok_shape env ffmpeg_path ffprobe_path exiftool_path src out_dir
      index cover_time max_duration fps max_width max_height r h).1
    rw [hr]
    simp [resolve_out_path, hex1]

theorem C10_witness :
    resolve_out_path envW.fileExists "o" (path_stem "video.mp4") 7 =
      "o/video_0007.livp" :=
  (C10_single_step_collision envW "ffmpeg" "ffprobe" "exiftool" "video.mp4"
    "o" 7 3 3 30 3840 2160 rfl rfl).1

/-- C4: the archive always holds exactly two entries, `<base>.jpeg` holding
the image bytes and `<base>.mov` holding the video bytes, each stored with
`ZIP_STORED` (no compression) and with flag bits 0, create_system 0,
create_version 0, extract_version 20 and external attributes 0. -/
theorem C4_pack_layout (env : Env)
    (photo_path video_path out_path internal_base : String) :
    (pack_livp env photo_path video_path out_path internal_base).length = 2 ∧
    (pack_livp env photo_path video_path out_path internal_base).map
        (fun e => e.filename) = [internal_base ++ ".jpeg", internal_base ++ ".mov"] ∧
    (pack_livp env photo_path video_path out_path internal_base).map
        (fun e => e.data) = [env.readBytes photo_path, env.readBytes video_path] ∧
    ∀ e ∈ pack_livp env photo_path video_path out_path internal_base,
      e.compress_type = ZIP_STORED ∧ e.flag_bits = 0 ∧ e.create_system = 0 ∧
      e.create_version = 0 ∧ e.extract_version = 20 ∧ e.external_attr = 0 := by
  refine ⟨rfl, rfl, rfl, ?_⟩
  intro e he
  simp only [pack_livp, List.map_cons, List.map_nil, List.mem_cons,
    List.not_mem_nil, or_false] at he
  rcases he with rfl | rfl <;> exact ⟨rfl, rfl, rfl, rfl, rfl, rfl⟩

theorem C4_witness :
    (pack_livp envW "p.jpeg" "v.mov" "o/x.livp" "IMG_0001.JPG").map
        (fun e => e.filename) = ["IMG_0001.JPG.jpeg", "IMG_0001.JPG.mov"] :=
  (C4_pack_layout envW "p.jpeg" "v.mov" "o/x.livp" "IMG_0001.JPG").2.1

/-- C7: each packed entry's timestamp is the source file's modification time
rendered to local calendar components year through second (sub-second parts
dropped), and whenever the timestamp cannot be read it is exactly
(1980, 1, 1, 0, 0, 0). -/
theorem C7_entry_timestamps (env : Env)
    (photo_path video_path out_path internal_base : String) :
    (pack_livp env photo_path video_path out_path internal_base).map
        (fun e => e.date_time) =
      [entryTimestamp env photo_path, entryTimestamp env video_path] ∧
    (∀ p ts, env.stat p = some ts →
      entryTimestamp env p = truncateDT (env.localtime ts)) ∧
    (∀ p, env.stat p = none → entryTimestamp env p = (1980, 1, 1, 0, 0, 0)) ∧
    (∀ dt : LocalDateTime, ∀ micro : Nat,
      truncateDT { dt with microsecond := micro } = truncateDT dt) := by
  refine ⟨rfl, ?_, ?_, fun dt micro => rfl⟩
  · intro p ts h
    simp [entryTimestamp, truncateDT, h]
  · intro p h
    simp [entryTimestamp, h]

theorem C7_witness :
    entryTimestamp envW "v.mov" = (1980, 1, 1, 0, 0, 0) :=
  (C7_entry_timestamps envW "p.jpeg" "v.mov" "o/x.livp" "IMG_0001.JPG").2.2.1 "v.mov" rfl

/-- C9: in the batch loop, the first source whose processing raises aborts the
batch: the loop result has code 1, the attempted list stops at the failing
file, every later file is left unprocessed, and the failure (file and raised
message) is reported. -/
theorem C9_first_failure_aborts (process : Nat → String → Except String String)
    (pre : List String) (bad : String) (post : List String) (start : Nat) (e : String)
    (hpre : ∀ i s, s ∈ pre → ∃ o, process i s = .ok o)
    (hbad : process (start + pre.length) bad = .error e) :
    main_loop process start (pre ++ bad :: post) =
      ⟨1, enumFrom start pre ++ [(start + pre.length, bad)],
       some (start + pre.length, bad, e)⟩ := by
  induction pre generalizing start with
  | nil =>
    simp only [List.length_nil, Nat.add_zero] at hbad
    simp [main_loop, hbad, enumFrom]
  | cons s pre ih =>
    obtain ⟨o, ho⟩ := hpre start s (List.mem_cons_self s pre)
    have hbad' : process (start + 1 + pre.length) bad = .error e := by
      have harith : start + 1 + pre.length = start + (s :: pre).length := by
        simp [List.length_cons]
        omega
      rw [harith]
      exact hbad
    have hrec := ih (start + 1) (fun i t ht => hpre i t (List.mem_cons_of_mem s ht)) hbad'
    have harith2 : start + 1 + pre.length = start + (s :: pre).length := by
      simp [List.length_cons]
      omega
    simp only [List.cons_append, main_loop, ho, enumFrom, List.append_eq]
    rw [hrec, harith2]

theorem C9_witness :
    main_loop procW 1 (["a"] ++ "b" :: ["c"]) =
      ⟨1, enumFrom 1 ["a"] ++ [(1 + (["a"] : List String).length, "b")],
       some (1 + (["a"] : List String).length, "b", "boom")⟩ :=
  C9_first_failure_aborts procW ["a"] "b" ["c"] 1 "boom"
    (by
      intro i s hs
      rw [List.mem_singleton] at hs
      subst hs
      exact ⟨"a", rfl⟩)
    rfl
